import Mathlib

/-!
Verification of the neopipe orchestration core: a shallow embedding of
`src/neopipe/result.py`, `src/neopipe/task.py`, `src/neopipe/pipeline.py`
and `src/neopipe/async_pipeline.py`, with theorems settling the behavioural
claims about the Result type, the retrying task wrapper and the three
pipeline execution algorithms.
-/

namespace Neopipe

universe u v w

variable {T : Type u} {E : Type v} {U : Type w}

/-- Embedding of `Result` from `result.py`: a frozen two-variant value
(`_is_ok` tag plus payload). The two payload slots of the Python union are
split into the two constructors. -/
inductive Result (T : Type u) (E : Type v) where
  | Ok (v : T)
  | Err (e : E)
deriving Repr, DecidableEq

/-- Embedding of `Result.is_ok` (result.py line 50). -/
def Result.is_ok : Result T E → Bool
  | .Ok _ => true
  | .Err _ => false

/-- Embedding of `Result.is_err` (result.py line 59): `not self._is_ok`. -/
def Result.is_err (r : Result T E) : Bool := !r.is_ok

/-- Embedding of `UnwrapError` (result.py line 12), carrying the exception message. -/
structure UnwrapError where
  message : String
deriving Repr, DecidableEq

/-- Decidable equality for `Except`, used to evaluate concrete runs. -/
instance instDecEqExcept {α : Type u} {β : Type v} [DecidableEq α] [DecidableEq β] :
    DecidableEq (Except α β)
  | .ok a, .ok b =>
      if h : a = b then .isTrue (by rw [h]) else .isFalse (by intro hc; cases hc; exact h rfl)
  | .ok _, .error _ => .isFalse (by intro hc; cases hc)
  | .error _, .ok _ => .isFalse (by intro hc; cases hc)
  | .error a, .error b =>
      if h : a = b then .isTrue (by rw [h]) else .isFalse (by intro hc; cases hc; exact h rfl)

/-- Embedding of `Result.unwrap` (result.py lines 172-184): the success value, or an
`UnwrapError` whose message renders the error payload
(`f"Called unwrap on Err: \x7bself._value\x7d"`). -/
def Result.unwrap [ToString E] : Result T E → Except UnwrapError T
  | .Ok v => .ok v
  | .Err e => .error ⟨"Called unwrap on Err: " ++ toString e⟩

/-- Embedding of `Result.expect` (result.py lines 210-225): the success value, or an
`UnwrapError` with the caller message prefixed
(`f"\x7bmsg\x7d: \x7bself._value\x7d"`). -/
def Result.expect [ToString E] (msg : String) : Result T E → Except UnwrapError T
  | .Ok v => .ok v
  | .Err e => .error ⟨msg ++ ": " ++ toString e⟩

/-!
## Task embedding (`task.py`)

`BaseSyncTask.__call__` (task.py lines 39-72) wraps an `execute` computation
in a retry loop: a call that returns normally (success *or* logical failure)
ends the loop at once; a call that raises records the fault, sleeps and
retries; `retries` exhausted raising attempts end in an `Err` naming the
task, the retry count and the last fault.  `BaseAsyncTask.__call__`
(task.py lines 183-216) is the same algorithm with `await`s, so one
embedding serves both.  A single call of the wrapped computation either
raises a fault or returns a `Result`; because stateful computations (as in
the repository tests) may behave differently on each attempt, the embedded
computation receives the 1-based attempt number alongside the input. -/

/-- One call of a wrapped computation: it either raises a fault with the
given message, or returns a `Result` normally. -/
inductive CallOutcome (T : Type u) (E : Type v) where
  | raises (msg : String)
  | returns (r : Result T E)
deriving Repr, DecidableEq

/-- Embedding of `BaseSyncTask` (and `BaseAsyncTask`): a task name, a retry
budget and the wrapped `execute` computation, indexed by attempt number.
Error payloads are strings, as everywhere in the pipeline layer. -/
structure BaseSyncTask (T : Type u) where
  task_name : String
  retries : Nat
  execute : Nat → Result T String → CallOutcome T String

/-- Alias: `BaseAsyncTask.__call__` runs the identical retry loop. -/
abbrev BaseAsyncTask (T : Type u) := BaseSyncTask T

/-- Rendering of `Optional[Exception]` in the final f-string of
`BaseSyncTask.__call__`: `None` prints as `"None"`. -/
def excText : Option String → String
  | none => "None"
  | some m => m

/-- The `Err` message produced when all attempts raised (task.py lines
70-72): `f"[\x7bname\x7d] failed after \x7bretries\x7d retries: \x7blast\x7d"`. -/
def BaseSyncTask.failText (t : BaseSyncTask T) (last : Option String) : String :=
  "[" ++ t.task_name ++ "] failed after " ++ toString t.retries ++ " retries: " ++ excText last

/-- The retry loop of `BaseSyncTask.__call__` from a given attempt number,
with `fuel` remaining attempts and the last captured fault.  Returns the
final `Result` together with the number of calls made to the wrapped
computation. -/
def BaseSyncTask.callFrom (t : BaseSyncTask T) (input : Result T String) :
    Nat → Nat → Option String → Result T String × Nat
  | _, 0, last => (.Err (t.failText last), 0)
  | attempt, fuel + 1, _ =>
    match t.execute attempt input with
    | .returns r => (r, 1)
    | .raises m =>
        let k := t.callFrom input (attempt + 1) fuel (some m)
        (k.1, k.2 + 1)

/-- Embedding of `BaseSyncTask.__call__` (task.py lines 39-72): run the
retry loop from attempt 1 with the full budget and no recorded fault.
Returns the task result and the number of calls to the wrapped computation. -/
def BaseSyncTask.call (t : BaseSyncTask T) (input : Result T String) :
    Result T String × Nat :=
  t.callFrom input 1 t.retries none

/-- The result a pipeline observes from invoking a task (the `Result` part
of `BaseSyncTask.call`; the count is instrumentation only). -/
def BaseSyncTask.run (t : BaseSyncTask T) (input : Result T String) : Result T String :=
  (t.call input).1

/-!
## Sequential pipeline (`pipeline.py`, `SyncPipeline.run`, lines 64-103)

The Python function returns, depending on the `debug` flag, either the
final `Result` itself, or `Ok((value_or_None, trace))`.  The payload of the
returned `Result` is therefore one of two shapes, captured by `RunPayload`.
Line 103 calls `result.unwrap()` in the debug branch, which can raise an
uncaught `UnwrapError`; the embedding therefore returns an `Except`.
`task(result)` itself never raises — `BaseSyncTask.__call__` catches every
exception of the wrapped computation — so the `except` branch of lines
89-93 is unreachable for tasks built from `BaseSyncTask` and has no
counterpart here.  Each run also yields the list of names of the tasks that
were invoked, in invocation order (instrumentation used to state the
short-circuit claims). -/

/-- Payload of the `Result` returned by `SyncPipeline.run` (and
`AsyncPipeline.run_sequence`): a plain final value when `debug=False`, or
the `(value_or_None, trace)` pair when `debug=True`. -/
inductive RunPayload (T : Type u) where
  | val (v : T)
  | debug (v : Option T) (trace : List (String × Result T String))
deriving Repr, DecidableEq

/-- Lifting of the `return result` statements of the non-debug paths: the
run returns the current `Result` itself, whose success payload is a plain
value. -/
def liftPlain : Result T String → Result (RunPayload T) String
  | .Ok v => .Ok (.val v)
  | .Err e => .Err e

/-- The `for` loop of `SyncPipeline.run` (pipeline.py lines 85-103) over
the remaining tasks, carrying the current `Result` and the accumulated
trace.  Returns the value of the `return` statement reached (or the
uncaught `UnwrapError` of line 103) together with the invocation log. -/
def SyncPipeline.runLoop (debug : Bool) :
    List (BaseSyncTask T) → Result T String → List (String × Result T String) →
    Except UnwrapError (Result (RunPayload T) String) × List String
  | [], result, trace =>
      if debug then
        match result.unwrap with
        | .ok v => (.ok (.Ok (.debug (some v) trace)), [])
        | .error ex => (.error ex, [])
      else (.ok (liftPlain result), [])
  | task :: rest, result, trace =>
      let res := task.run result
      let trace1 := if debug then trace ++ [(task.task_name, res)] else trace
      if res.is_err then
        ((if debug then .ok (.Ok (.debug none trace1)) else .ok (liftPlain res)),
         [task.task_name])
      else
        let k := SyncPipeline.runLoop debug rest res trace1
        (k.1, task.task_name :: k.2)

/-- Embedding of `SyncPipeline.run` (pipeline.py lines 64-103).  When
`debug` is true the trace starts with the `(pipeline_name, input)` entry of
line 81. -/
def SyncPipeline.run (name : String) (tasks : List (BaseSyncTask T))
    (input_result : Result T String) (debug : Bool) :
    Except UnwrapError (Result (RunPayload T) String) × List String :=
  SyncPipeline.runLoop debug tasks input_result
    (if debug then [(name, input_result)] else [])

/-!
## Sequential async pipeline (`async_pipeline.py`, `run_sequence`, lines 136-169)

Same chaining algorithm with three differences: no initial
`(pipeline_name, input)` trace entry, the trace is appended
unconditionally (line 162) though only returned when `debug`, and the final
`current.unwrap()` (line 168) is evaluated in both modes, so the zero-task
pipeline with an `Err` input raises even without `debug`. -/

/-- The `for` loop of `AsyncPipeline.run_sequence`. -/
def AsyncPipeline.run_sequenceLoop (debug : Bool) :
    List (BaseAsyncTask T) → Result T String → List (String × Result T String) →
    Except UnwrapError (Result (RunPayload T) String) × List String
  | [], current, trace =>
      match current.unwrap with
      | .ok v => (.ok (.Ok (if debug then .debug (some v) trace else .val v)), [])
      | .error ex => (.error ex, [])
  | task :: rest, current, trace =>
      let res := task.run current
      let trace1 := trace ++ [(task.task_name, res)]
      if res.is_err then
        ((if debug then .ok (.Ok (.debug none trace1)) else .ok (liftPlain res)),
         [task.task_name])
      else
        let k := AsyncPipeline.run_sequenceLoop debug rest res trace1
        (k.1, task.task_name :: k.2)

/-- Embedding of `AsyncPipeline.run_sequence` (async_pipeline.py lines
136-169). -/
def AsyncPipeline.run_sequence (tasks : List (BaseAsyncTask T))
    (input_result : Result T String) (debug : Bool) :
    Except UnwrapError (Result (RunPayload T) String) × List String :=
  AsyncPipeline.run_sequenceLoop debug tasks input_result []

/-!
## Concurrent fan-out (`async_pipeline.py`, `AsyncPipeline.run`, lines 96-134)

`asyncio.gather` awaits every launched task before the aggregation loop
inspects any outcome; the gather is embedded as a map over the zipped
task/input pairs, producing the list of `(task_name, outcome)` pairs in
launch (registration) order.  The aggregation loop then appends trace
entries (when `debug`) and unwrapped outputs until the first `Err`, at
which point it returns.  The invocation log is the list of launched task
names. -/

/-- Payload of the `Result` returned by `AsyncPipeline.run`: the list of
unwrapped outputs when `debug=False`, or `(outputs_or_None, trace)` when
`debug=True`. -/
inductive FanoutPayload (T : Type u) where
  | vals (out : List T)
  | debug (out : Option (List T)) (trace : List (String × Result T String))
deriving Repr, DecidableEq

/-- The aggregation loop of `AsyncPipeline.run` (lines 123-134) over the
gathered `(task_name, outcome)` pairs, carrying the trace and outputs. -/
def AsyncPipeline.aggregate (debug : Bool) :
    List (String × Result T String) → List (String × Result T String) → List T →
    Result (FanoutPayload T) String
  | [], trace, outputs =>
      if debug then .Ok (.debug (some outputs) trace) else .Ok (.vals outputs)
  | (name, res) :: rest, trace, outputs =>
      let trace1 := if debug then trace ++ [(name, res)] else trace
      match res with
      | .Err e => if debug then .Ok (.debug none trace1) else .Err e
      | .Ok v => AsyncPipeline.aggregate debug rest trace1 (outputs ++ [v])

/-- The gathered per-task outcomes of `AsyncPipeline.run` line 116-118:
each registered task invoked once on its positional input. -/
def AsyncPipeline.gatherResults (tasks : List (BaseAsyncTask T))
    (inputs : List (Result T String)) : List (String × Result T String) :=
  (List.zip tasks inputs).map (fun p => (p.1.task_name, p.1.run p.2))

/-- Embedding of `AsyncPipeline.run` (async_pipeline.py lines 96-134),
with the list of launched task names as invocation log. -/
def AsyncPipeline.run (tasks : List (BaseAsyncTask T))
    (inputs : List (Result T String)) (debug : Bool) :
    Result (FanoutPayload T) String × List String :=
  if inputs.length ≠ tasks.length then
    (.Err "Number of inputs must match number of tasks", [])
  else
    (AsyncPipeline.aggregate debug (AsyncPipeline.gatherResults tasks inputs) [] [],
     (List.zip tasks inputs).map (fun p => p.1.task_name))

/-!
## Parallel pipeline group (`pipeline.py`, `SyncPipeline.run_parallel`, lines 105-169)

Each pipeline runs in a worker thread; `as_completed` yields futures in a
nondeterministic completion order, modelled by an explicit `order`
parameter listing the pipeline indices in the order their futures are
processed (a permutation of `0..n-1`).  Results are written into a slot
list at the pipeline's registration index, so the successful aggregate is
in registration order regardless of `order`; traces are appended in
completion order.  A length mismatch raises `AssertionError` (an `Except`
level contract failure).  A pipeline whose `run` raises (only possible via
the uncaught `UnwrapError` of `run` line 103) is converted to an `Err`
naming the pipeline — and aborts the whole aggregation, as does the first
`Err` outcome observed. -/

/-- Data carrier for a named pipeline outcome, used by `run_parallel`.
Modelled from the spec: `PipelineResult` is imported by `pipeline.py` from
`neopipe.result` but absent from the `result.py` in the tree; per the spec
(§3) it is "a (name, final value) pair".  The value slot is `none` when the
debug payload carried `None`. -/
structure PipelineResult (T : Type u) where
  name : String
  result : Option T
deriving Repr, DecidableEq

/-- Data carrier for one pipeline's debug trace, used by `run_parallel`.
Modelled from the spec: `SinglePipelineTrace` is imported by `pipeline.py`
but absent from `result.py`; per the spec (§3, §4.5) a per-pipeline Trace
is the pipeline name with its list of (task name, Outcome) steps. -/
structure SinglePipelineTrace (T : Type u) where
  name : String
  tasks : List (String × Result T String)
deriving Repr, DecidableEq

/-- Payload of the `Result` returned by `SyncPipeline.run_parallel`: the
slot list of per-pipeline results, plus the trace list when `debug`. -/
inductive ParallelPayload (T : Type u) where
  | plain (results : List (Option (PipelineResult T)))
  | debug (results : List (Option (PipelineResult T)))
      (traces : List (SinglePipelineTrace T))
deriving Repr, DecidableEq

/-- The value stored by `run_parallel` into a `PipelineResult` slot:
`res.unwrap()` destructured as `(val, trace)` under `debug`, or taken
whole otherwise.  A non-debug run only ever produces a `.val` payload, so
the `.debug` arm is reached only under `debug`. -/
def RunPayload.storedValue : RunPayload T → Option T
  | .val v => some v
  | .debug v _ => v

/-- The trace part of a debug run payload (empty for a plain payload,
which a debug run never produces). -/
def RunPayload.storedTrace : RunPayload T → List (String × Result T String)
  | .val _ => []
  | .debug _ tr => tr

/-- A registered pipeline of the parallel group: its name and task list. -/
structure SyncPipelineSpec (T : Type u) where
  name : String
  tasks : List (BaseSyncTask T)

/-- The `as_completed` loop of `SyncPipeline.run_parallel` (lines 144-165)
over the remaining completion order, carrying the result slots and the
trace list. -/
def SyncPipeline.run_parallelLoop (pipelines : List (SyncPipelineSpec T))
    (inputs : List (Result T String)) (debug : Bool) :
    List Nat → List (Option (PipelineResult T)) → List (SinglePipelineTrace T) →
    Result (ParallelPayload T) String
  | [], results, traces =>
      if debug then .Ok (.debug results traces) else .Ok (.plain results)
  | idx :: rest, results, traces =>
      match pipelines.get? idx, inputs.get? idx with
      | some p, some inp =>
          match (SyncPipeline.run p.name p.tasks inp debug).1 with
          | .error ex =>
              .Err ("Exception in pipeline " ++ p.name ++ ": " ++ ex.message)
          | .ok (.Err e) => .Err e
          | .ok (.Ok payload) =>
              SyncPipeline.run_parallelLoop pipelines inputs debug rest
                (results.set idx (some ⟨p.name, payload.storedValue⟩))
                (if debug then traces ++ [⟨p.name, payload.storedTrace⟩] else traces)
      | _, _ => SyncPipeline.run_parallelLoop pipelines inputs debug rest results traces

/-- Embedding of `SyncPipeline.run_parallel` (pipeline.py lines 105-169).
`order` is the completion order of the futures, a permutation of the
pipeline indices (an out-of-range index is skipped; it never occurs for a
permutation).  The `AssertionError` of line 133 is the `Except` error. -/
def SyncPipeline.run_parallel (pipelines : List (SyncPipelineSpec T))
    (inputs : List (Result T String)) (order : List Nat) (debug : Bool) :
    Except String (Result (ParallelPayload T) String) :=
  if pipelines.length ≠ inputs.length then
    .error "Each pipeline needs a corresponding input Result"
  else
    .ok (SyncPipeline.run_parallelLoop pipelines inputs debug order
      (List.replicate pipelines.length none) [])

/-!
## Task signature validation (`SyncPipeline.add_task`, pipeline.py lines
40-62, and `AsyncPipeline._validate_task`, async_pipeline.py lines 74-94)

Both inspect the signature of `task.execute`, drop any `self` parameter,
and test the first remaining parameter's annotation with
`get_origin(annotation) is Result`, which holds exactly for a subscripted
generic `Result[...]` (a bare `Result`, or any other annotation, has a
different or no origin).  The sync variant requires *at least one*
non-self parameter; the async variant requires *exactly one*.  Violations
raise `TypeError` (modelled as the `Except` error) and leave the task
unregistered.  The quotes around the task name in the Python messages are
omitted here. -/

/-- The annotation of a parameter, as seen by `typing.get_origin`: a
subscripted `Result[...]` generic (origin `Result`), or anything else
(rendered by the given text in error messages). -/
inductive ParamAnn where
  | resultGeneric (args : String)
  | other (text : String)
deriving Repr, DecidableEq

/-- Test for `get_origin(param.annotation) is Result`. -/
def ParamAnn.originIsResult : ParamAnn → Bool
  | .resultGeneric _ => true
  | .other _ => false

/-- Rendering of the annotation inside the error f-strings. -/
def ParamAnn.text : ParamAnn → String
  | .resultGeneric args => "Result[" ++ args ++ "]"
  | .other t => t

/-- One parameter of an `execute` signature. -/
structure Param where
  pname : String
  ann : ParamAnn
deriving Repr, DecidableEq

/-- The signature-relevant view of a task: its name and the parameter list
of its `execute` method (possibly including `self`). -/
structure TaskSig where
  task_name : String
  params : List Param
deriving Repr, DecidableEq

/-- The `[p for p in params if p.name != "self"]` filter used by both
validators. -/
def TaskSig.nonSelfParams (t : TaskSig) : List Param :=
  t.params.filter (fun p => p.pname ≠ "self")

/-- Embedding of `SyncPipeline.add_task` (pipeline.py lines 40-62): on
success the task is appended to the registered list, otherwise the
`TypeError` message is returned and the list is unchanged. -/
def SyncPipeline.add_task (tasks : List TaskSig) (task : TaskSig) :
    Except String (List TaskSig) :=
  let ps := task.nonSelfParams
  if ps.length < 1 then
    .error ("Task " ++ task.task_name ++
      " must define an execute(self, input_result: Result) method with at least one input parameter.")
  else
    match ps.head? with
    | some p =>
        if p.ann.originIsResult then .ok (tasks ++ [task])
        else .error ("Task " ++ task.task_name ++
          " first argument must be of type Result[T, E]. Found: " ++ p.ann.text)
    | none => .ok (tasks ++ [task])

/-- Embedding of `AsyncPipeline._validate_task` combined with
`AsyncPipeline.add_task` (async_pipeline.py lines 61-94). -/
def AsyncPipeline.add_task (tasks : List TaskSig) (task : TaskSig) :
    Except String (List TaskSig) :=
  let ps := task.nonSelfParams
  if ps.length ≠ 1 then
    .error ("Task " ++ task.task_name ++
      " must have exactly one input parameter: Result[T, E]")
  else
    match ps.head? with
    | some p =>
        if p.ann.originIsResult then .ok (tasks ++ [task])
        else .error ("Task " ++ task.task_name ++
          " first arg must be Result[T, E], found " ++ p.ann.text)
    | none => .ok (tasks ++ [task])

/-!
## Concrete tasks used in witnesses and counterexamples

These mirror the helper tasks of the repository test-suite and of the
concrete example in spec §8 (`add_one`, `fail("x")`, `multiply_two`,
`to_one`, `fail_task`).  All are stateless: they ignore the attempt
number and never raise. -/

/-- Pure task: increments an `Ok` payload, propagates `Err` (tests'
`add_one`). -/
def add_one : BaseSyncTask Int :=
  ⟨"add_one", 1, fun _ r => .returns (match r with | .Ok v => .Ok (v + 1) | .Err e => .Err e)⟩

/-- Pure task: doubles an `Ok` payload, propagates `Err` (tests'
`multiply_two`). -/
def multiply_two : BaseSyncTask Int :=
  ⟨"multiply_two", 1, fun _ r => .returns (match r with | .Ok v => .Ok (v * 2) | .Err e => .Err e)⟩

/-- Pure task: always returns `Err "x"` (spec §8 example `fail("x")`). -/
def fail_x : BaseSyncTask Int :=
  ⟨"fail", 1, fun _ _ => .returns (.Err "x")⟩

/-- Pure task: always returns `Err "failure occurred"` (sync tests'
`fail_task`). -/
def fail_task : BaseSyncTask Int :=
  ⟨"fail_task", 1, fun _ _ => .returns (.Err "failure occurred")⟩

/-- Pure task: always returns `Err "error occurred"` (async tests'
`fail_task`). -/
def fail_async : BaseAsyncTask Int :=
  ⟨"fail_task", 1, fun _ _ => .returns (.Err "error occurred")⟩

/-- Pure task: always returns `Ok 1` (parallel tests' `to_one`). -/
def to_one : BaseSyncTask Int :=
  ⟨"to_one", 1, fun _ _ => .returns (.Ok 1)⟩

/-- A computation that raises on every attempt, with a numbered fault
message. -/
def always_raises (n : Nat) : BaseSyncTask Int :=
  ⟨"always_raises", n, fun attempt _ => .raises ("boom " ++ toString attempt)⟩

/-!
## Observers for stating the sequential short-circuit claims

`chain` is the `Result` threaded through a prefix of tasks, `chainAllOk`
states that no task of the prefix fails on its input, and `chainTrace` is
the per-step trace of the prefix.  All three are read off the embedded
task invocation. -/

/-- The current `Result` after sequentially invoking the given tasks,
stopping (as the pipeline does) at the first `Err`. -/
def chain : List (BaseSyncTask T) → Result T String → Result T String
  | [], r => r
  | t :: rest, r =>
      let res := t.run r
      if res.is_err then res else chain rest res

/-- Every task of the list, run sequentially from the given input,
returns a success outcome. -/
def chainAllOk : List (BaseSyncTask T) → Result T String → Bool
  | [], _ => true
  | t :: rest, r =>
      let res := t.run r
      res.is_ok && chainAllOk rest res

/-- The `(task_name, outcome)` pairs produced by sequentially invoking the
given tasks, stopping after the first `Err`. -/
def chainTrace : List (BaseSyncTask T) → Result T String → List (String × Result T String)
  | [], _ => []
  | t :: rest, r =>
      let res := t.run r
      (t.task_name, res) :: (if res.is_err then [] else chainTrace rest res)

/-- Helper: a success outcome is not an error. -/
theorem is_err_of_is_ok {r : Result T String} (h : r.is_ok = true) : r.is_err = false := by
  cases r with
  | Ok v => rfl
  | Err e => cases h

/-- Helper: the sync run loop on `pre ++ b :: post`, when every task of
`pre` succeeds and `b` then fails, returns at `b` without touching `post`:
the non-debug branch yields the failure itself, the debug branch yields
`Ok (None, trace)` with the failure as last trace entry, and the
invocation log stops at `b`. -/
theorem SyncPipeline.runLoop_shortCircuit (debug : Bool)
    (pre : List (BaseSyncTask T)) (b : BaseSyncTask T) (post : List (BaseSyncTask T)) :
    ∀ (input : Result T String) (trace : List (String × Result T String)),
    chainAllOk pre input = true → (b.run (chain pre input)).is_err = true →
    SyncPipeline.runLoop debug (pre ++ b :: post) input trace =
      ((if debug then
          .ok (.Ok (.debug none (trace ++ chainTrace pre input ++ [(b.task_name, b.run (chain pre input))])))
        else .ok (liftPlain (b.run (chain pre input)))),
       pre.map BaseSyncTask.task_name ++ [b.task_name]) := by
  induction pre with
  | nil =>
      intro input trace _ hb
      simp only [chain] at hb
      simp only [List.nil_append, SyncPipeline.runLoop, chain, chainTrace, List.map_nil]
      rw [hb]
      cases debug <;> simp
  | cons t rest ih =>
      intro input trace hok hb
      simp only [chainAllOk, Bool.and_eq_true] at hok
      have hne : (t.run input).is_err = false := is_err_of_is_ok hok.1
      have hch : chain (t :: rest) input = chain rest (t.run input) := by
        simp [chain, hne]
      rw [hch] at hb
      have htr : chainTrace (t :: rest) input =
          (t.task_name, t.run input) :: chainTrace rest (t.run input) := by
        simp [chainTrace, hne]
      rw [hch, htr]
      simp only [List.cons_append, SyncPipeline.runLoop, List.append_eq, hne,
        Bool.false_eq_true, if_false]
      rw [ih (t.run input) (if debug then trace ++ [(t.task_name, t.run input)] else trace)
        hok.2 hb]
      cases debug <;> simp

/-- Helper: the async sequential loop short-circuits identically: on
`pre ++ b :: post` with `pre` succeeding and `b` failing it returns at `b`
without touching `post`. -/
theorem AsyncPipeline.run_sequenceLoop_shortCircuit (debug : Bool)
    (pre : List (BaseAsyncTask T)) (b : BaseAsyncTask T) (post : List (BaseAsyncTask T)) :
    ∀ (input : Result T String) (trace : List (String × Result T String)),
    chainAllOk pre input = true → (b.run (chain pre input)).is_err = true →
    AsyncPipeline.run_sequenceLoop debug (pre ++ b :: post) input trace =
      ((if debug then
          .ok (.Ok (.debug none (trace ++ chainTrace pre input ++ [(b.task_name, b.run (chain pre input))])))
        else .ok (liftPlain (b.run (chain pre input)))),
       pre.map BaseSyncTask.task_name ++ [b.task_name]) := by
  induction pre with
  | nil =>
      intro input trace _ hb
      simp only [chain] at hb
      simp only [List.nil_append, AsyncPipeline.run_sequenceLoop, chain, chainTrace,
        List.map_nil]
      rw [hb]
      cases debug <;> simp
  | cons t rest ih =>
      intro input trace hok hb
      simp only [chainAllOk, Bool.and_eq_true] at hok
      have hne : (t.run input).is_err = false := is_err_of_is_ok hok.1
      have hch : chain (t :: rest) input = chain rest (t.run input) := by
        simp [chain, hne]
      rw [hch] at hb
      have htr : chainTrace (t :: rest) input =
          (t.task_name, t.run input) :: chainTrace rest (t.run input) := by
        simp [chainTrace, hne]
      rw [hch, htr]
      simp only [List.cons_append, AsyncPipeline.run_sequenceLoop, List.append_eq, hne,
        Bool.false_eq_true, if_false]
      rw [ih (t.run input) (trace ++ [(t.task_name, t.run input)]) hok.2 hb]
      cases debug <;> simp

/-- Helper: the retry loop under a computation that raises on every
attempt makes exactly `fuel + 1` further calls and ends in the
exhaustion `Err`, whose recorded fault is the one of the last attempt. -/
theorem BaseSyncTask.callFrom_raises (t : BaseSyncTask T) (input : Result T String)
    (m : Nat → String) (h : ∀ k, t.execute k input = .raises (m k)) :
    ∀ (fuel a : Nat) (last : Option String),
    t.callFrom input a (fuel + 1) last = (.Err (t.failText (some (m (a + fuel)))), fuel + 1) := by
  intro fuel
  induction fuel with
  | zero =>
      intro a last
      simp only [BaseSyncTask.callFrom, h a, Nat.add_zero]
  | succ f ih =>
      intro a last
      have step : t.callFrom input a (f + 1 + 1) last =
          (let k := t.callFrom input (a + 1) (f + 1) (some (m a)); (k.1, k.2 + 1)) := by
        simp only [BaseSyncTask.callFrom, h a]
      rw [step, ih (a + 1) (some (m a))]
      have harith : a + 1 + f = a + (f + 1) := by omega
      simp [harith]

end Neopipe

namespace Neopipe

variable {T : Type u}

/-- C2: a task with retry budget `n ≥ 1` whose wrapped computation raises
on every attempt calls the computation exactly `n` times and returns
(never raises) a failure `Err` whose message is exactly
`[name] failed after n retries: last_fault` — it contains the task name,
the phrase `failed after n`, and the fault of the last (n-th) attempt. -/
theorem C2_retry_exhaustion (t : BaseSyncTask T) (input : Result T String)
    (m : Nat → String) (hn : 1 ≤ t.retries)
    (h : ∀ k, t.execute k input = .raises (m k)) :
    t.call input =
      (.Err ("[" ++ t.task_name ++ "] failed after " ++ toString t.retries ++
        " retries: " ++ m t.retries), t.retries) := by
  obtain ⟨f, hf⟩ : ∃ f, t.retries = f + 1 := ⟨t.retries - 1, by omega⟩
  unfold BaseSyncTask.call
  rw [hf, BaseSyncTask.callFrom_raises t input m h f 1 none]
  have h1f : 1 + f = t.retries := by omega
  rw [h1f]
  simp [BaseSyncTask.failText, excText, hf]

/-- Witness for C2: a concrete always-raising task with budget 3 is
called exactly 3 times and yields the exhaustion message with the third
fault. -/
theorem C2_retry_exhaustion_witness :
    (always_raises 3).call (.Ok 0) =
      (.Err "[always_raises] failed after 3 retries: boom 3", 3) := by
  rw [C2_retry_exhaustion (always_raises 3) (.Ok 0)
    (fun k => "boom " ++ toString k) (by decide) (fun k => rfl)]
  rfl

/-- C6: a task whose wrapped computation returns a failure `Err` on the
first call (without raising) makes exactly one call and returns that
failure unchanged, for every retry budget `n ≥ 1`: logical failures are
never retried. -/
theorem C6_no_retry_on_logical_failure (t : BaseSyncTask T) (input : Result T String)
    (r : Result T String) (hn : 1 ≤ t.retries)
    (h1 : t.execute 1 input = .returns r) (_herr : r.is_err = true) :
    t.call input = (r, 1) := by
  obtain ⟨f, hf⟩ : ∃ f, t.retries = f + 1 := ⟨t.retries - 1, by omega⟩
  unfold BaseSyncTask.call
  rw [hf]
  simp only [BaseSyncTask.callFrom, h1]

/-- Witness for C6: a concrete always-`Err` task with budget 5 is invoked
once and its logical failure is returned as is. -/
theorem C6_no_retry_witness :
    (BaseSyncTask.mk "fail_task" 5 (fun _ _ => .returns (.Err "failure occurred")) :
        BaseSyncTask Int).call (.Ok 1) = (.Err "failure occurred", 1) :=
  C6_no_retry_on_logical_failure _ (.Ok 1) (.Err "failure occurred")
    (by decide) rfl rfl

/-- C7: a concurrent fan-out run with `len(inputs) != len(tasks)` returns
the immediate count-mismatch failure `Err` and its invocation log is
empty — no task is invoked. -/
theorem C7_count_mismatch (tasks : List (BaseAsyncTask T))
    (inputs : List (Result T String)) (debug : Bool)
    (h : inputs.length ≠ tasks.length) :
    AsyncPipeline.run tasks inputs debug =
      (.Err "Number of inputs must match number of tasks", []) := by
  unfold AsyncPipeline.run
  rw [if_pos h]

/-- Witness for C7: two tasks, one input. -/
theorem C7_count_mismatch_witness :
    AsyncPipeline.run [add_one, multiply_two] [.Ok 1] false =
      (.Err "Number of inputs must match number of tasks", []) :=
  C7_count_mismatch [add_one, multiply_two] [.Ok 1] false (by decide)

/-- C9: `unwrap` on a success returns the payload and on a failure yields
an `UnwrapError` whose message carries the error payload; `expect msg`
behaves the same with `msg` prefixed to the message. -/
theorem C9_unwrap_expect (v : T) (e msg : String) :
    (Result.Ok v : Result T String).unwrap = .ok v ∧
    (Result.Err e : Result T String).unwrap =
      .error ⟨"Called unwrap on Err: " ++ e⟩ ∧
    (Result.Ok v : Result T String).expect msg = .ok v ∧
    (Result.Err e : Result T String).expect msg = .error ⟨msg ++ ": " ++ e⟩ :=
  ⟨rfl, rfl, rfl, rfl⟩

/-- C10: a `SyncPipeline` with zero registered tasks: `run` with
`debug=True` on a failure input raises an uncaught `UnwrapError` (the
final success branch unconditionally unwraps), while with `debug=False`
it returns the input unchanged — the run surface is not total. -/
theorem C10_empty_pipeline_unwrap (pname e : String) (input : Result T String) :
    SyncPipeline.run pname ([] : List (BaseSyncTask T)) (.Err e) true =
      (.error ⟨"Called unwrap on Err: " ++ e⟩, []) ∧
    SyncPipeline.run pname ([] : List (BaseSyncTask T)) input false =
      (.ok (liftPlain input), []) := by
  constructor
  · rfl
  · rfl

/-- C3 evidence: `SyncPipeline.run` returns a bare `Result` — on a
failing task it returns the task's `Err` itself when `debug=False` and a
*success*-tagged `Ok((None, trace))` when `debug=True`; no
`ExecutionResult` wrapper carrying `.result`/`.trace`/`.execution_time`
exists anywhere in its return value, contradicting the repository's own
`test_sync_pipeline.py`. -/
theorem C3_run_returns_raw_result :
    SyncPipeline.run "P" [fail_task] (.Ok 1) false =
      (.ok (.Err "failure occurred"), ["fail_task"]) ∧
    SyncPipeline.run "P" [fail_task] (.Ok 1) true =
      (.ok (.Ok (.debug none [("P", .Ok 1), ("fail_task", .Err "failure occurred")])),
       ["fail_task"]) :=
  ⟨rfl, rfl⟩

/-- C1 counterexample: for the concrete pipeline `[add_one, fail("x"),
multiply_two]` on input `Ok 1` run with `debug=True`, the returned value is
the success-tagged `Ok((None, trace))` — it does *not* equal the failure
`Err "x"` produced by the second task, so the claim's unqualified "the
run's final result is that first failure" fails for debug runs. -/
theorem C1_counterexample :
    (SyncPipeline.run "P" [add_one, fail_x, multiply_two] (.Ok 1) true).1 =
      .ok (.Ok (.debug none [("P", .Ok 1), ("add_one", .Ok 2), ("fail", .Err "x")])) ∧
    (SyncPipeline.run "P" [add_one, fail_x, multiply_two] (.Ok 1) true).1 ≠
      .ok (.Err "x") :=
  ⟨rfl, by decide⟩

/-- C1 (amended): in a sequential run over `pre ++ [b] ++ post` where every
task of `pre` succeeds and `b` returns a failure, no task of `post` is
invoked (the invocation log ends at `b`) and the first failure decides the
run: with `debug=False` both `SyncPipeline.run` and
`AsyncPipeline.run_sequence` return exactly that failure `Err`; with
`debug=True` they return `Ok((None, trace))` whose last trace entry is
that failure. -/
theorem C1_sequential_shortCircuit (pname : String)
    (pre : List (BaseSyncTask T)) (b : BaseSyncTask T) (post : List (BaseSyncTask T))
    (input : Result T String) (e : String)
    (hpre : chainAllOk pre input = true)
    (hb : b.run (chain pre input) = .Err e) :
    SyncPipeline.run pname (pre ++ b :: post) input false =
      (.ok (.Err e), pre.map BaseSyncTask.task_name ++ [b.task_name]) ∧
    SyncPipeline.run pname (pre ++ b :: post) input true =
      (.ok (.Ok (.debug none
          ((pname, input) :: (chainTrace pre input ++ [(b.task_name, .Err e)])))),
       pre.map BaseSyncTask.task_name ++ [b.task_name]) ∧
    AsyncPipeline.run_sequence (pre ++ b :: post) input false =
      (.ok (.Err e), pre.map BaseSyncTask.task_name ++ [b.task_name]) ∧
    AsyncPipeline.run_sequence (pre ++ b :: post) input true =
      (.ok (.Ok (.debug none (chainTrace pre input ++ [(b.task_name, .Err e)]))),
       pre.map BaseSyncTask.task_name ++ [b.task_name]) := by
  have hberr : (b.run (chain pre input)).is_err = true := by rw [hb]; rfl
  refine ⟨?_, ?_, ?_, ?_⟩
  · unfold SyncPipeline.run
    rw [SyncPipeline.runLoop_shortCircuit false pre b post input
      (if false then [(pname, input)] else []) hpre hberr, hb]
    rfl
  · unfold SyncPipeline.run
    rw [SyncPipeline.runLoop_shortCircuit true pre b post input
      (if true then [(pname, input)] else []) hpre hberr, hb]
    simp
  · unfold AsyncPipeline.run_sequence
    rw [AsyncPipeline.run_sequenceLoop_shortCircuit false pre b post input [] hpre hberr, hb]
    rfl
  · unfold AsyncPipeline.run_sequence
    rw [AsyncPipeline.run_sequenceLoop_shortCircuit true pre b post input [] hpre hberr, hb]
    simp

/-- Witness for C1: the spec §8 concrete pipeline with `debug=False`:
`C` (`multiply_two`) is absent from the invocation log and the run's value
is `B`'s failure `Err "x"`. -/
theorem C1_sequential_shortCircuit_witness :
    SyncPipeline.run "P" [add_one, fail_x, multiply_two] (.Ok 1) false =
      (.ok (.Err "x"), ["add_one", "fail"]) := by
  have h := (C1_sequential_shortCircuit "P" [add_one] fail_x [multiply_two]
    (.Ok 1) "x" (by decide) (by decide)).1
  simpa using h

/-- The unwrapped success values of a list of named outcomes (the
`outputs.append(res.unwrap())` accumulation of `AsyncPipeline.run`). -/
def okValues : List (String × Result T String) → List T :=
  List.filterMap (fun p => match p.2 with | .Ok v => some v | .Err _ => none)

/-- Helper: the fan-out aggregation loop over outcomes that are all
successes consumes the whole list, tracing every entry. -/
theorem AsyncPipeline.aggregate_allOk (debug : Bool) :
    ∀ (l : List (String × Result T String)) (trace : List (String × Result T String))
      (outs : List T), (l.all fun p => p.2.is_ok) = true →
    AsyncPipeline.aggregate debug l trace outs =
      (if debug then .Ok (.debug (some (outs ++ okValues l)) (trace ++ l))
       else .Ok (.vals (outs ++ okValues l))) := by
  intro l
  induction l with
  | nil =>
      intro trace outs _
      cases debug <;> simp [AsyncPipeline.aggregate, okValues]
  | cons p rest ih =>
      intro trace outs hall
      obtain ⟨n, res⟩ := p
      simp only [List.all_cons, Bool.and_eq_true] at hall
      cases res with
      | Err e => cases hall.1
      | Ok v =>
          have hv : okValues ((n, Result.Ok v) :: rest) = v :: okValues rest := by
            simp [okValues]
          rw [hv]
          simp only [AsyncPipeline.aggregate, List.append_eq]
          rw [ih (if debug = true then trace ++ [(n, Result.Ok v)] else trace)
            (outs ++ [v]) hall.2]
          cases debug <;> simp

/-- Helper: the fan-out aggregation loop stops at the first failure: the
entries after it are neither traced nor inspected. -/
theorem AsyncPipeline.aggregate_firstErr (debug : Bool) :
    ∀ (okl : List (String × Result T String)) (bn e : _) (rest trace : List _)
      (outs : List T), (okl.all fun p => p.2.is_ok) = true →
    AsyncPipeline.aggregate debug (okl ++ (bn, .Err e) :: rest) trace outs =
      (if debug then .Ok (.debug none (trace ++ okl ++ [(bn, .Err e)])) else .Err e) := by
  intro okl
  induction okl with
  | nil =>
      intro bn e rest trace outs _
      cases debug <;> simp [AsyncPipeline.aggregate]
  | cons p tl ih =>
      intro bn e rest trace outs hall
      obtain ⟨n, res⟩ := p
      simp only [List.all_cons, Bool.and_eq_true] at hall
      cases res with
      | Err e2 => cases hall.1
      | Ok v =>
          simp only [List.cons_append, AsyncPipeline.aggregate, List.append_eq]
          rw [ih bn e rest (if debug = true then trace ++ [(n, Result.Ok v)] else trace)
            (outs ++ [v]) hall.2]
          cases debug <;> simp

/-- Helper: the gathered outcome list splits at a positional boundary when
the left lengths agree. -/
theorem AsyncPipeline.gatherResults_append (pre post : List (BaseAsyncTask T))
    (ins1 ins2 : List (Result T String)) (bt : BaseAsyncTask T) (ib : Result T String)
    (hl : pre.length = ins1.length) :
    AsyncPipeline.gatherResults (pre ++ bt :: post) (ins1 ++ ib :: ins2) =
      AsyncPipeline.gatherResults pre ins1 ++
        (bt.task_name, bt.run ib) :: AsyncPipeline.gatherResults post ins2 := by
  unfold AsyncPipeline.gatherResults
  rw [List.zip_append hl]
  simp

/-- C4 counterexample: the concrete fan-out `[add_one, fail_task,
multiply_two]` on inputs `[Ok 1, Ok 2, Ok 3]`: with `debug=False` the
aggregate value is the single first failure `Err "error occurred"`, not an
ordered list of the three per-task Outcomes; with `debug=True` the trace
has entries only up to the failing task — none is built for
`multiply_two`, although the log shows all three tasks were invoked. -/
theorem C4_counterexample :
    AsyncPipeline.run [add_one, fail_async, multiply_two] [.Ok 1, .Ok 2, .Ok 3] false =
      (.Err "error occurred", ["add_one", "fail_task", "multiply_two"]) ∧
    AsyncPipeline.run [add_one, fail_async, multiply_two] [.Ok 1, .Ok 2, .Ok 3] true =
      (.Ok (.debug none [("add_one", .Ok 2), ("fail_task", .Err "error occurred")]),
       ["add_one", "fail_task", "multiply_two"]) ∧
    [("add_one", (.Ok 2 : Result Int String)), ("fail_task", .Err "error occurred")].length ≠
      [add_one, fail_async, multiply_two].length :=
  ⟨rfl, rfl, by decide⟩

/-- C4 (amended): in a fan-out run with matching lengths every registered
task is invoked on its positional input (the log lists them all, in
order, regardless of failures); when all outcomes succeed the aggregate
is the ordered list of unwrapped success values (paired by position),
with a trace entry per task under `debug`; when some task fails, the
first failure (in position order) is returned as the aggregate value
(`debug=False`) or as `Ok((None, trace))` whose trace stops at that
failing task (`debug=True`). -/
theorem C4_fanout_aggregation :
    (∀ (tasks : List (BaseAsyncTask T)) (inputs : List (Result T String)) (debug : Bool),
      inputs.length = tasks.length →
      (AsyncPipeline.run tasks inputs debug).2 = tasks.map BaseSyncTask.task_name) ∧
    (∀ (tasks : List (BaseAsyncTask T)) (inputs : List (Result T String)) (debug : Bool),
      inputs.length = tasks.length →
      ((AsyncPipeline.gatherResults tasks inputs).all fun p => p.2.is_ok) = true →
      (AsyncPipeline.run tasks inputs debug).1 =
        (if debug then
          .Ok (.debug (some (okValues (AsyncPipeline.gatherResults tasks inputs)))
            (AsyncPipeline.gatherResults tasks inputs))
         else .Ok (.vals (okValues (AsyncPipeline.gatherResults tasks inputs))))) ∧
    (∀ (pre post : List (BaseAsyncTask T)) (bt : BaseAsyncTask T)
      (ins1 ins2 : List (Result T String)) (ib : Result T String) (e : String)
      (debug : Bool), pre.length = ins1.length → post.length = ins2.length →
      ((AsyncPipeline.gatherResults pre ins1).all fun p => p.2.is_ok) = true →
      bt.run ib = .Err e →
      (AsyncPipeline.run (pre ++ bt :: post) (ins1 ++ ib :: ins2) debug).1 =
        (if debug then
          .Ok (.debug none (AsyncPipeline.gatherResults pre ins1 ++ [(bt.task_name, .Err e)]))
         else .Err e)) := by
  refine ⟨?_, ?_, ?_⟩
  · intro tasks inputs debug hlen
    unfold AsyncPipeline.run
    rw [if_neg (by omega)]
    have := List.map_fst_zip tasks inputs (by omega)
    calc (List.zip tasks inputs).map (fun p => p.1.task_name)
        = ((List.zip tasks inputs).map Prod.fst).map BaseSyncTask.task_name := by
          rw [List.map_map]; rfl
      _ = tasks.map BaseSyncTask.task_name := by rw [this]
  · intro tasks inputs debug hlen hall
    unfold AsyncPipeline.run
    rw [if_neg (by omega)]
    rw [AsyncPipeline.aggregate_allOk debug _ [] [] hall]
    cases debug <;> simp
  · intro pre post bt ins1 ins2 ib e debug hl1 hl2 hallpre hb
    unfold AsyncPipeline.run
    rw [if_neg (by simp; omega)]
    rw [AsyncPipeline.gatherResults_append pre post ins1 ins2 bt ib hl1, hb]
    rw [AsyncPipeline.aggregate_firstErr debug _ _ _ _ [] [] hallpre]
    cases debug <;> simp

/-- Witness for C4: the concrete failing fan-out of the counterexample,
via the amended theorem: all three tasks are launched and the debug trace
stops at the failing task. -/
theorem C4_fanout_aggregation_witness :
    (AsyncPipeline.run [add_one, fail_async, multiply_two] [.Ok 1, .Ok 2, .Ok 3] true).1 =
      .Ok (.debug none [("add_one", .Ok 2), ("fail_task", .Err "error occurred")]) ∧
    (AsyncPipeline.run [add_one, fail_async, multiply_two] [.Ok 1, .Ok 2, .Ok 3] true).2 =
      ["add_one", "fail_task", "multiply_two"] := by
  constructor
  · have h := (C4_fanout_aggregation (T := Int)).2.2 [add_one] [multiply_two] fail_async
      [.Ok 1] [.Ok 3] (.Ok 2) "error occurred" true (by decide) (by decide)
      (by decide) (by decide)
    simpa using h
  · exact (C4_fanout_aggregation (T := Int)).1
      [add_one, fail_async, multiply_two] [.Ok 1, .Ok 2, .Ok 3] true (by decide)

/-- C5 evidence: `SyncPipeline.run_parallel` aborts on the first failure it
meets.  With pipelines `P1=[to_one]`, `P2=[fail_task]` it returns the bare
`Err "failure occurred"` — discarding `P1`'s successful result — in either
completion order; and a fault escaping one pipeline (here the uncaught
`UnwrapError` of a zero-task debug run on an `Err` input) is converted to
an `Err` naming that pipeline but likewise aborts the whole aggregation.
On all-success runs, slots are filled at registration positions, so
completion order does not affect the successful aggregate (4th conjunct,
completion order reversed). -/
theorem C5_parallel_first_error_aborts :
    SyncPipeline.run_parallel [⟨"P1", [to_one]⟩, ⟨"P2", [fail_task]⟩]
      [.Ok 0, .Ok 0] [0, 1] false = .ok (.Err "failure occurred") ∧
    SyncPipeline.run_parallel [⟨"P1", [to_one]⟩, ⟨"P2", [fail_task]⟩]
      [.Ok 0, .Ok 0] [1, 0] false = .ok (.Err "failure occurred") ∧
    SyncPipeline.run_parallel [⟨"Bad", ([] : List (BaseSyncTask Int))⟩, ⟨"Good", [to_one]⟩]
      [.Err "boom", .Ok 0] [0, 1] true =
      .ok (.Err "Exception in pipeline Bad: Called unwrap on Err: boom") ∧
    SyncPipeline.run_parallel [⟨"P1", [to_one]⟩, ⟨"P2", [add_one]⟩]
      [.Ok 0, .Ok 4] [1, 0] false =
      .ok (.Ok (.plain [some ⟨"P1", some 1⟩, some ⟨"P2", some 5⟩])) :=
  ⟨rfl, rfl, rfl, rfl⟩

/-- A signature with two non-self parameters, the first annotated
`Result[int, str]` (as `inspect` sees a two-argument `execute`). -/
def twoParamTask : TaskSig :=
  ⟨"TwoParam", [⟨"self", .other "Self"⟩, ⟨"input_result", .resultGeneric "int, str"⟩,
    ⟨"extra", .other "int"⟩]⟩

/-- A well-formed signature: a single non-self parameter annotated
`Result[int, str]`. -/
def okTask : TaskSig :=
  ⟨"GoodTask", [⟨"self", .other "Self"⟩, ⟨"input_result", .resultGeneric "int, str"⟩]⟩

/-- A signature whose `execute` has no parameter beyond `self` (the
tests' `NoParamTask`). -/
def noParamTask : TaskSig := ⟨"NoParamTask", [⟨"self", .other "Self"⟩]⟩

/-- C8 counterexample: a task whose `execute` takes *two* parameters
beyond `self` (first annotated `Result[...]`) violates the claim's
"exactly one parameter" condition, yet `SyncPipeline.add_task` accepts and
registers it — the sync validator only requires at least one parameter
and checks the first one's annotation. -/
theorem C8_counterexample :
    twoParamTask.nonSelfParams.length = 2 ∧
    SyncPipeline.add_task [] twoParamTask = .ok [twoParamTask] :=
  ⟨rfl, rfl⟩

/-- C8 (amended): attachment-time validation, before any execution.
`AsyncPipeline.add_task` accepts exactly the signatures with exactly one
non-self parameter whose annotation is a subscripted `Result[...]` generic;
`SyncPipeline.add_task` accepts exactly those with at least one non-self
parameter whose *first* annotation is a subscripted `Result[...]` generic
(extra parameters are not rejected).  Every rejection is a `TypeError`
message naming the offending task (and, for annotation violations, the
found annotation), and leaves the task unregistered. -/
theorem C8_validation (tasks : List TaskSig) (t : TaskSig) :
    (SyncPipeline.add_task tasks t = .ok (tasks ++ [t]) ↔
      1 ≤ t.nonSelfParams.length ∧
      t.nonSelfParams.head?.map (fun p => p.ann.originIsResult) = some true) ∧
    (AsyncPipeline.add_task tasks t = .ok (tasks ++ [t]) ↔
      t.nonSelfParams.length = 1 ∧
      t.nonSelfParams.head?.map (fun p => p.ann.originIsResult) = some true) ∧
    (t.nonSelfParams = [] →
      SyncPipeline.add_task tasks t = .error ("Task " ++ t.task_name ++
        " must define an execute(self, input_result: Result) method with at least one input parameter.")) ∧
    (∀ p ps, t.nonSelfParams = p :: ps → p.ann.originIsResult = false →
      SyncPipeline.add_task tasks t = .error ("Task " ++ t.task_name ++
        " first argument must be of type Result[T, E]. Found: " ++ p.ann.text)) ∧
    (t.nonSelfParams.length ≠ 1 →
      AsyncPipeline.add_task tasks t = .error ("Task " ++ t.task_name ++
        " must have exactly one input parameter: Result[T, E]")) ∧
    (∀ p, t.nonSelfParams = [p] → p.ann.originIsResult = false →
      AsyncPipeline.add_task tasks t = .error ("Task " ++ t.task_name ++
        " first arg must be Result[T, E], found " ++ p.ann.text)) := by
  refine ⟨?_, ?_, ?_, ?_, ?_, ?_⟩
  · cases hp : t.nonSelfParams with
    | nil => simp [SyncPipeline.add_task, hp]
    | cons p ps =>
        cases hpa : p.ann.originIsResult <;>
          simp [SyncPipeline.add_task, hp, hpa, Nat.succ_le_succ]
  · cases hp : t.nonSelfParams with
    | nil => simp [AsyncPipeline.add_task, hp]
    | cons p ps =>
        cases ps with
        | nil =>
            cases hpa : p.ann.originIsResult <;>
              simp [AsyncPipeline.add_task, hp, hpa]
        | cons q qs =>
            simp [AsyncPipeline.add_task, hp]
  · intro hp
    simp [SyncPipeline.add_task, hp]
  · intro p ps hp hpa
    simp [SyncPipeline.add_task, hp, hpa]
  · intro hlen
    simp [AsyncPipeline.add_task, hlen]
  · intro p hp hpa
    simp [AsyncPipeline.add_task, hp, hpa]

/-- Witness for C8: the good one-parameter signature is registered by
both validators; the parameterless signature is rejected by the async
validator with the arity message naming it; the two-parameter signature
is rejected by the async validator but accepted by the sync one. -/
theorem C8_validation_witness :
    SyncPipeline.add_task [] okTask = .ok [okTask] ∧
    AsyncPipeline.add_task [] okTask = .ok [okTask] ∧
    AsyncPipeline.add_task [] noParamTask = .error
      "Task NoParamTask must have exactly one input parameter: Result[T, E]" ∧
    AsyncPipeline.add_task [] twoParamTask = .error
      "Task TwoParam must have exactly one input parameter: Result[T, E]" := by
  refine ⟨?_, ?_, ?_, ?_⟩
  · exact (C8_validation [] okTask).1.mpr (by decide)
  · exact (C8_validation [] okTask).2.1.mpr (by decide)
  · have h := (C8_validation [] noParamTask).2.2.2.2.1 (by decide)
    simpa using h
  · have h := (C8_validation [] twoParamTask).2.2.2.2.1 (by decide)
    simpa using h

end Neopipe
